import Mathlib

/-!
# Verification of the veil-backend call-notify push-delivery path

Shallow embedding of the push-registration registry operations
(`api/routes/push.py`), the two platform push clients
(`api/services/apns.py`, `api/services/fcm.py`) and the call-notify
dispatcher (`call_notify` in `api/routes/push.py`).

The relational store is modelled as a list of `PushRegistration` records
(the `push_registrations` table); SQL statements are translated to the
corresponding pure list operations.  Provider network behaviour and
per-send durations are supplied as oracles, since they are environment
inputs of the code, not code.
-/

/-- One row of the `push_registrations` table. -/
structure PushRegistration where
  jid : String
  device_uuid : String
  platform : String
  push_token : String
  app_id : String
  registered_at : Nat
deriving DecidableEq, Repr

/-- The `push_registrations` table. -/
abbrev Registry := List PushRegistration

/-- The natural key of a registration row: `(jid, device_uuid)`. -/
def regKey (r : PushRegistration) : String × String := (r.jid, r.device_uuid)

/-- The `WHERE jid = $1 AND device_uuid = $2` condition shared by every
keyed statement in `push.py`. -/
def matchesKey (jid did : String) (r : PushRegistration) : Bool :=
  r.jid == jid && r.device_uuid == did

/-- Statement `DELETE FROM push_registrations WHERE jid = $1 AND device_uuid = $2`:
removes every row matching the key (at most one under the table's unique
constraint). -/
def removeRegistration (reg : Registry) (jid did : String) : Registry :=
  reg.filter (fun r => !(matchesKey jid did r))

/-- The Dispatcher's cleanup delete (`call_notify`, cleanup loop): the same
`DELETE` statement executed without inspecting the affected-row count, so a
missing row is not an error.  Total by construction. -/
def deleteQuietly (reg : Registry) (jid did : String) : Registry :=
  removeRegistration reg jid did

/-- Statement `INSERT ... ON CONFLICT (jid, device_uuid) DO UPDATE SET push_token,
platform, app_id, registered_at = NOW()` from `register_push`.  If a row
with the key exists it is overwritten in place (token, platform, app id and
the refreshed timestamp `now`); otherwise a fresh row is appended. -/
def upsertRegistration (reg : Registry) (jid did platform push_token app_id : String)
    (now : Nat) : Registry :=
  if reg.any (matchesKey jid did) then
    reg.map (fun r =>
      if matchesKey jid did r then
        { r with platform := platform, push_token := push_token,
                 app_id := app_id, registered_at := now }
      else r)
  else
    reg ++ [{ jid := jid, device_uuid := did, platform := platform,
              push_token := push_token, app_id := app_id, registered_at := now }]

/-- HTTP-level failures raised by the registration endpoints. -/
inductive HttpError
  | forbidden
  | notFound
deriving DecidableEq, Repr

/-- Route `deregister_push`: after the JID/auth check, the `DELETE` statement runs
unconditionally; a `DELETE 0` result (no row matched) is then turned into a
404.  Returns the registry after the statement together with the HTTP
outcome. -/
def deregisterPush (callerJid jid did : String) (reg : Registry) :
    Registry × Except HttpError String :=
  if jid ≠ callerJid then (reg, .error .forbidden)
  else
    let matched := reg.countP (matchesKey jid did)
    let reg2 := removeRegistration reg jid did
    if matched = 0 then (reg2, .error .notFound)
    else (reg2, .ok "deregistered")

/-- The webhook body (`CallNotifyRequest` in `api/models.py`);
`caller_display_name` defaults to the empty string, `call_type` to
`"audio"`. -/
structure CallNotifyRequest where
  callee_username : String
  caller_username : String
  caller_display_name : String := ""
  call_id : String
  call_type : String := "audio"
deriving DecidableEq, Repr

/-- Expression `body.caller_display_name or body.caller_username` (line 96 of
`push.py`): Python `or` yields the right operand exactly when the left one
is the empty string. -/
def callerDisplay (b : CallNotifyRequest) : String :=
  if b.caller_display_name = "" then b.caller_username else b.caller_display_name

/-- The callee JID composition of line 95 of `push.py`: the callee
username, an at sign, and the configured XMPP domain. -/
def calleeJidOf (domain : String) (b : CallNotifyRequest) : String :=
  b.callee_username ++ "@" ++ domain

/-- One row of the `SELECT device_uuid, platform, push_token ... WHERE
jid = $1` result set used by `call_notify`. -/
structure Row where
  device_uuid : String
  platform : String
  push_token : String
deriving DecidableEq, Repr

/-- The `SELECT device_uuid, platform, push_token FROM push_registrations
WHERE jid = $1` query. -/
def fetchRegistrations (reg : Registry) (jid : String) : List Row :=
  (reg.filter (fun r => r.jid == jid)).map
    (fun r => { device_uuid := r.device_uuid, platform := r.platform,
                push_token := r.push_token })

/-! ## APNs service (`api/services/apns.py`) -/

/-- The environment read by `_get_client`: the three `APNS_*` variables
(empty string when unset, the `os.environ.get(..., "")` default), the
bundle id (already defaulted to `com.example.veil`), the sandbox flag, and
whether the key file at `APNS_KEY_PATH` exists on disk. -/
structure ApnsEnv where
  key_path : String
  key_id : String
  team_id : String
  bundle_id : String
  use_sandbox : Bool
  key_file_exists : Bool
deriving DecidableEq, Repr

/-- The `aioapns.APNs` connection object constructed by `_get_client`. -/
structure ApnsClient where
  key : String
  key_id : String
  team_id : String
  topic : String
  use_sandbox : Bool
deriving DecidableEq, Repr

/-- The module-level mutable state of `apns.py`: the `_client` global. -/
structure ApnsState where
  client : Option ApnsClient
deriving DecidableEq, Repr

/-- The `_client = None` initial state of a fresh process. -/
def apnsInitState : ApnsState := { client := none }

/-- Log events emitted by `apns.py`, tagged by call site. -/
inductive ApnsLog
  | warnNotConfigured
  | warnKeyFileNotFound
  | infoSkipPush
  | errorRejected
  | exceptionConnError
deriving DecidableEq, Repr

/-- The misconfiguration warnings of `_get_client`. -/
def ApnsLog.isMisconfigWarning : ApnsLog → Bool
  | .warnNotConfigured => true
  | .warnKeyFileNotFound => true
  | _ => false

/-- Result of `_get_client`: the client (or `None`), the module state after
the call, and the log records it emitted. -/
structure ApnsClientLookup where
  client : Option ApnsClient
  state : ApnsState
  logs : List ApnsLog
deriving DecidableEq, Repr

/-- Function `_get_client`: returns the cached `_client` when present; otherwise
checks the three variables, then the key file, logging a warning and
returning `None` (without caching anything) on failure; on success builds
and caches the client. -/
def apnsGetClient (env : ApnsEnv) (st : ApnsState) : ApnsClientLookup :=
  match st.client with
  | some c => { client := some c, state := st, logs := [] }
  | none =>
    if env.key_path = "" ∨ env.key_id = "" ∨ env.team_id = "" then
      { client := none, state := st, logs := [.warnNotConfigured] }
    else if env.key_file_exists = false then
      { client := none, state := st, logs := [.warnKeyFileNotFound] }
    else
      let c : ApnsClient :=
        { key := env.key_path, key_id := env.key_id, team_id := env.team_id,
          topic := env.bundle_id ++ ".voip", use_sandbox := env.use_sandbox }
      { client := some c, state := { client := some c }, logs := [] }

/-- The `aioapns.NotificationRequest` built by `send_voip_push`: the
`message` payload as an association list in construction order, plus the
`push_type` metadata. -/
structure ApnsPayload where
  device_token : String
  message : List (String × String)
  push_type : String
deriving DecidableEq, Repr

/-- Payload construction of `send_voip_push` (lines 63–71 of `apns.py`). -/
def apnsNotificationRequest (device_token caller_name call_id call_type : String) :
    ApnsPayload :=
  { device_token := device_token,
    message := [("caller_name", caller_name), ("call_id", call_id),
                ("call_type", call_type)],
    push_type := "voip" }

/-- What the APNs provider does with one send attempt: accept it, reject it
with a response description, or fail the connection (`aioapns.ConnectionError`,
covering connection failure and timeout). -/
inductive ApnsProviderBehavior
  | success
  | rejectedWith (description : Option String)
  | connectionError
deriving DecidableEq, Repr

/-- Result of `send_voip_push`: the Python return value (`True`/`False`/`None`
as `Option Bool`), the module state afterwards, the logs, and the request
actually handed to the provider (`none` = no network I/O attempted). -/
structure ApnsSendResult where
  result : Option Bool
  state : ApnsState
  logs : List ApnsLog
  request : Option ApnsPayload
deriving DecidableEq, Repr

/-- Function `send_voip_push`: skip (returning `None`) when `_get_client` yields no
client; otherwise send the request and map the provider behaviour to the
return value exactly as the `try/except` does — an unsuccessful response
returns `False`, and a `ConnectionError` is also caught and returns
`False`. -/
def sendVoipPush (env : ApnsEnv) (behavior : ApnsProviderBehavior) (st : ApnsState)
    (device_token caller_name call_id call_type : String) : ApnsSendResult :=
  let lookup := apnsGetClient env st
  match lookup.client with
  | none =>
    { result := none, state := lookup.state,
      logs := lookup.logs ++ [.infoSkipPush], request := none }
  | some _ =>
    let req := apnsNotificationRequest device_token caller_name call_id call_type
    match behavior with
    | .success =>
      { result := some true, state := lookup.state, logs := lookup.logs,
        request := some req }
    | .rejectedWith _ =>
      { result := some false, state := lookup.state,
        logs := lookup.logs ++ [.errorRejected], request := some req }
    | .connectionError =>
      { result := some false, state := lookup.state,
        logs := lookup.logs ++ [.exceptionConnError], request := some req }

/-- Function `is_bad_token_error` (`apns.py`): the adapter's own classifier of which
response descriptions mean the device token itself is invalid.  (It is
defined in the source but never consulted by `send_voip_push`.) -/
def apnsIsBadTokenError (description : Option String) : Bool :=
  match description with
  | none => false
  | some d => d == "BadDeviceToken" || d == "Unregistered" || d == "ExpiredToken"

/-! ## FCM service (`api/services/fcm.py`) -/

/-- The environment read by `_ensure_initialized`: the
`FCM_SERVICE_ACCOUNT_PATH` variable (empty when unset), whether that file
exists, and whether loading the certificate / initializing the SDK
succeeds. -/
structure FcmEnv where
  sa_path : String
  sa_file_exists : Bool
  cred_load_ok : Bool
deriving DecidableEq, Repr

/-- The module-level mutable state of `fcm.py`: the `_app` and
`_initialized` globals (`_app` modelled as a unit marker). -/
structure FcmState where
  app : Option Unit
  initialized : Bool
deriving DecidableEq, Repr

/-- The `_app = None`, `_initialized = False` initial state of a fresh
process. -/
def fcmInitState : FcmState := { app := none, initialized := false }

/-- Log events emitted by `fcm.py`, tagged by call site. -/
inductive FcmLog
  | warnNotConfigured
  | exceptionInitFailed
  | infoSkipPush
  | warnUnregistered
  | errorInvalidToken
  | exceptionSendError
deriving DecidableEq, Repr

/-- The misconfiguration records of `_ensure_initialized` (missing path or
a credential that fails to load). -/
def FcmLog.isMisconfigWarning : FcmLog → Bool
  | .warnNotConfigured => true
  | .exceptionInitFailed => true
  | _ => false

/-- Result of `_ensure_initialized`: the returned readiness flag, the
module state afterwards, and the logs it emitted. -/
structure FcmInitResult where
  ready : Bool
  state : FcmState
  logs : List FcmLog
deriving DecidableEq, Repr

/-- Function `_ensure_initialized`: once `_initialized` is set the cached
`_app is not None` answer is returned silently; the first call sets
`_initialized = True`, then either warns (missing/nonexistent path), fails
the credential load with a logged exception, or installs `_app`. -/
def fcmEnsureInitialized (env : FcmEnv) (st : FcmState) : FcmInitResult :=
  if st.initialized then
    { ready := st.app.isSome, state := st, logs := [] }
  else
    let st1 : FcmState := { st with initialized := true }
    if env.sa_path = "" ∨ env.sa_file_exists = false then
      { ready := false, state := st1, logs := [.warnNotConfigured] }
    else if env.cred_load_ok then
      { ready := true, state := { st1 with app := some () }, logs := [] }
    else
      { ready := false, state := st1, logs := [.exceptionInitFailed] }

/-- The `messaging.Message` built by `send_call_push`: the `data` payload
as an association list in construction order, plus the `AndroidConfig`
delivery metadata. -/
structure FcmMessage where
  token : String
  data : List (String × String)
  android_priority : String
  android_ttl : Nat
deriving DecidableEq, Repr

/-- Payload construction of `send_call_push` (lines 58–70 of `fcm.py`). -/
def fcmMessage (device_token caller_name call_id call_type : String) : FcmMessage :=
  { token := device_token,
    data := [("type", "call"), ("caller_name", caller_name),
             ("call_id", call_id), ("call_type", call_type)],
    android_priority := "high",
    android_ttl := 60 }

/-- What `messaging.send` does with one attempt: accept the message, raise
`UnregisteredError`, raise `InvalidArgumentError`, or raise any other
exception (connection failure, timeout, ...). -/
inductive FcmProviderBehavior
  | success
  | unregisteredError
  | invalidArgumentError
  | otherError
deriving DecidableEq, Repr

/-- Result of `send_call_push`: the Python return value, the module state
afterwards, the logs, and the message actually handed to `messaging.send`
(`none` = no network I/O attempted). -/
structure FcmSendResult where
  result : Option Bool
  state : FcmState
  logs : List FcmLog
  message : Option FcmMessage
deriving DecidableEq, Repr

/-- Function `send_call_push`: skip (returning `None`) when the SDK is not ready;
otherwise send and map the provider behaviour exactly as the `try/except`
chain does — `UnregisteredError`, `InvalidArgumentError` and every other
exception all return `False`. -/
def sendCallPush (env : FcmEnv) (behavior : FcmProviderBehavior) (st : FcmState)
    (device_token caller_name call_id call_type : String) : FcmSendResult :=
  let init := fcmEnsureInitialized env st
  if init.ready = false then
    { result := none, state := init.state,
      logs := init.logs ++ [.infoSkipPush], message := none }
  else
    let msg := fcmMessage device_token caller_name call_id call_type
    match behavior with
    | .success =>
      { result := some true, state := init.state, logs := init.logs,
        message := some msg }
    | .unregisteredError =>
      { result := some false, state := init.state,
        logs := init.logs ++ [.warnUnregistered], message := some msg }
    | .invalidArgumentError =>
      { result := some false, state := init.state,
        logs := init.logs ++ [.errorInvalidToken], message := some msg }
    | .otherError =>
      { result := some false, state := init.state,
        logs := init.logs ++ [.exceptionSendError], message := some msg }

/-- Function `is_bad_token_error` (`fcm.py`): the adapter's own
`isinstance(error, (UnregisteredError, InvalidArgumentError))` classifier,
expressed over the behaviours that raise.  (Defined in the source but never
consulted by `send_call_push`.) -/
def fcmIsBadTokenError : FcmProviderBehavior → Bool
  | .unregisteredError => true
  | .invalidArgumentError => true
  | _ => false

/-! ## Call-notify dispatcher (`call_notify` in `api/routes/push.py`)

The per-registration provider responses are supplied as oracles
`apnsR fcmR : Row → Option Bool` (the value `send_voip_push` /
`send_call_push` returns for that registration) and `dur : Row → Nat`
(the wall-clock duration of that awaited send).  The loop body awaits each
send before starting the next, so elapsed time accumulates additively
across iterations. -/

/-- One invocation of a platform push client made by the dispatch loop,
with the arguments it was called with. -/
inductive ProviderCall
  | apns (device_token caller_name call_id call_type : String)
  | fcm (device_token caller_name call_id call_type : String)
deriving DecidableEq, Repr

/-- The `caller_name` argument a provider invocation carried. -/
def providerCallerName : ProviderCall → String
  | .apns _ n _ _ => n
  | .fcm _ n _ _ => n

/-- The mutable accumulator of the `for row in rows` loop: the `sent`
counter, the `bad_tokens` list, plus instrumentation (the provider calls
made so far and the elapsed awaited time). -/
structure LoopState where
  sent : Nat
  badTokens : List (String × String)
  calls : List ProviderCall
  elapsed : Nat
deriving DecidableEq, Repr

/-- One iteration of the dispatch loop (lines 111–139 of `push.py`): an
`ios` row awaits `send_voip_push`, an `android` row awaits
`send_call_push`; `True` increments `sent`, `False` appends
`(callee_jid, device_uuid)` to `bad_tokens`, `None` does nothing; any
other platform value does nothing at all. -/
def stepRow (calleeJid callerDisp callId callType : String)
    (apnsR fcmR : Row → Option Bool) (dur : Row → Nat)
    (st : LoopState) (row : Row) : LoopState :=
  if row.platform == "ios" then
    let st1 : LoopState :=
      { st with
        calls := st.calls ++ [.apns row.push_token callerDisp callId callType],
        elapsed := st.elapsed + dur row }
    match apnsR row with
    | some true => { st1 with sent := st1.sent + 1 }
    | some false => { st1 with badTokens := st1.badTokens ++ [(calleeJid, row.device_uuid)] }
    | none => st1
  else if row.platform == "android" then
    let st1 : LoopState :=
      { st with
        calls := st.calls ++ [.fcm row.push_token callerDisp callId callType],
        elapsed := st.elapsed + dur row }
    match fcmR row with
    | some true => { st1 with sent := st1.sent + 1 }
    | some false => { st1 with badTokens := st1.badTokens ++ [(calleeJid, row.device_uuid)] }
    | none => st1
  else st

/-- The whole `for row in rows` loop, started from
`sent = 0, bad_tokens = []`. -/
def dispatchLoop (calleeJid callerDisp callId callType : String)
    (apnsR fcmR : Row → Option Bool) (dur : Row → Nat) (rows : List Row) :
    LoopState :=
  rows.foldl (stepRow calleeJid callerDisp callId callType apnsR fcmR dur)
    { sent := 0, badTokens := [], calls := [], elapsed := 0 }

/-- The delivery outcome a row produces: `none` when no send happens
(platform neither `ios` nor `android`), otherwise the service return value
(`some true` = Delivered, `some false` = PermanentlyRejected,
`none` = Skipped). -/
def rowOutcome (apnsR fcmR : Row → Option Bool) (row : Row) : Option (Option Bool) :=
  if row.platform == "ios" then some (apnsR row)
  else if row.platform == "android" then some (fcmR row)
  else none

/-- The row's send was Delivered. -/
def rowDelivered (apnsR fcmR : Row → Option Bool) (row : Row) : Bool :=
  rowOutcome apnsR fcmR row == some (some true)

/-- The row's send was PermanentlyRejected. -/
def rowRejected (apnsR fcmR : Row → Option Bool) (row : Row) : Bool :=
  rowOutcome apnsR fcmR row == some (some false)

/-- The provider invocation(s) one row gives rise to (one for a known
platform, none otherwise). -/
def rowCall (callerDisp callId callType : String) (row : Row) : List ProviderCall :=
  if row.platform == "ios" then
    [.apns row.push_token callerDisp callId callType]
  else if row.platform == "android" then
    [.fcm row.push_token callerDisp callId callType]
  else []

/-- The awaited duration one row contributes (zero when no send happens). -/
def rowCost (dur : Row → Nat) (row : Row) : Nat :=
  if row.platform == "ios" || row.platform == "android" then dur row else 0

/-- Storage-layer failure of a cleanup `DELETE` (the database error message
an `asyncpg` `execute` would raise with). -/
abbrev DbError := String

/-- The cleanup loop (lines 143–148 of `push.py`): one `DELETE` per bad
token, in order; an oracle `deleteErr` says whether the statement raises.
A raised error aborts the loop and propagates, exactly as an uncaught
exception would. -/
def execCleanup (deleteErr : String → String → Option DbError) :
    Registry → List (String × String) → Except DbError Registry
  | reg, [] => .ok reg
  | reg, (jid, did) :: rest =>
    match deleteErr jid did with
    | some e => .error e
    | none => execCleanup deleteErr (removeRegistration reg jid did) rest

/-- The registry a fully successful cleanup pass leaves behind. -/
def cleanupFold (reg : Registry) (pairs : List (String × String)) : Registry :=
  pairs.foldl (fun r p => removeRegistration r p.1 p.2) reg

/-- The `{"status": ..., "sent": ...}` body `call_notify` responds with. -/
structure CallNotifyResponse where
  status : String
  sent : Nat
deriving DecidableEq, Repr

/-- Route `call_notify` (lines 81–151 of `push.py`).  Returns the provider
invocations that were made (they happen before cleanup, so they survive a
cleanup failure) together with either the response and the registry after
cleanup, or the database error an uncaught cleanup failure propagates. -/
def callNotify (domain : String) (apnsR fcmR : Row → Option Bool)
    (dur : Row → Nat) (deleteErr : String → String → Option DbError)
    (reg : Registry) (body : CallNotifyRequest) :
    List ProviderCall × Except DbError (CallNotifyResponse × Registry) :=
  let calleeJid := calleeJidOf domain body
  let callerDisp := callerDisplay body
  let rows := fetchRegistrations reg calleeJid
  if rows.isEmpty then
    ([], .ok ({ status := "no_registrations", sent := 0 }, reg))
  else
    let st := dispatchLoop calleeJid callerDisp body.call_id body.call_type
      apnsR fcmR dur rows
    let cleanup :=
      if st.badTokens.isEmpty then .ok reg
      else execCleanup deleteErr reg st.badTokens
    match cleanup with
    | .error e => (st.calls, .error e)
    | .ok reg2 => (st.calls, .ok ({ status := "sent", sent := st.sent }, reg2))

/-- Whether a dispatch result is a normal (non-error) response. -/
def dispatchResultOk : Except DbError (CallNotifyResponse × Registry) → Bool
  | .ok _ => true
  | .error _ => false

/-- The `(jid, device_uuid)` uniqueness invariant enforced by the table's
unique constraint (the `ON CONFLICT` target): pairwise distinct keys. -/
def KeyUnique (reg : Registry) : Prop :=
  reg.Pairwise (fun a b => regKey a ≠ regKey b)

/-- The duration of the slowest single send among the rows — the bound the
spec asserts for total dispatch latency. -/
def slowestSend (dur : Row → Nat) (rows : List Row) : Nat :=
  (rows.map dur).foldr max 0

/-! ## Concrete inputs used by witnesses and counterexamples -/

/-- A concrete webhook body with a non-empty display name. -/
def demoBody : CallNotifyRequest :=
  { callee_username := "bob", caller_username := "alice",
    caller_display_name := "Alice", call_id := "c1", call_type := "audio" }

/-- A concrete webhook body whose `caller_display_name` was omitted
(Pydantic default `""`). -/
def demoBodyNoName : CallNotifyRequest :=
  { callee_username := "bob", caller_username := "alice",
    caller_display_name := "", call_id := "c1", call_type := "audio" }

/-- A concrete stored iOS registration for `bob@example.com`. -/
def demoIosReg : PushRegistration :=
  { jid := "bob@example.com", device_uuid := "dev-ios-1", platform := "ios",
    push_token := "apnstoken01", app_id := "com.example.veil",
    registered_at := 100 }

/-- A second concrete iOS registration for `bob@example.com`. -/
def demoIosReg2 : PushRegistration :=
  { jid := "bob@example.com", device_uuid := "dev-ios-2", platform := "ios",
    push_token := "apnstoken02", app_id := "com.example.veil",
    registered_at := 101 }

/-- A concrete stored Android registration for `bob@example.com`. -/
def demoAndroidReg : PushRegistration :=
  { jid := "bob@example.com", device_uuid := "dev-and-1",
    platform := "android", push_token := "fcmtoken01",
    app_id := "com.example.veil", registered_at := 102 }

/-- A concrete registry for `bob@example.com`: two iOS devices and one
Android device. -/
def demoRegistry : Registry := [demoIosReg, demoIosReg2, demoAndroidReg]

/-- A webhook body for a different callee and caller account that resolves
to the same display name, call id and call type as `demoBody`. -/
def demoBodyOtherCallee : CallNotifyRequest :=
  { callee_username := "carol", caller_username := "someone",
    caller_display_name := "Alice", call_id := "c1", call_type := "audio" }

/-- An `ApnsEnv` with no configuration at all. -/
def apnsUnconfEnv : ApnsEnv :=
  { key_path := "", key_id := "", team_id := "",
    bundle_id := "com.example.veil", use_sandbox := true,
    key_file_exists := false }

/-- A fully configured `ApnsEnv`. -/
def apnsCfgEnv : ApnsEnv :=
  { key_path := "/keys/apns.p8", key_id := "KEY123", team_id := "TEAM456",
    bundle_id := "com.example.veil", use_sandbox := true,
    key_file_exists := true }

/-- A fully configured `FcmEnv`. -/
def fcmCfgEnv : FcmEnv :=
  { sa_path := "/keys/fcm.json", sa_file_exists := true, cred_load_ok := true }

/-- An `FcmEnv` with no configuration at all. -/
def fcmUnconfEnv : FcmEnv :=
  { sa_path := "", sa_file_exists := false, cred_load_ok := false }

/-- An `ApnsEnv` in which `_get_client` cannot produce a client: a missing
variable or a missing key file. -/
def apnsMisconfigured (env : ApnsEnv) : Prop :=
  env.key_path = "" ∨ env.key_id = "" ∨ env.team_id = "" ∨
    env.key_file_exists = false

/-- An `FcmEnv` in which `_ensure_initialized` cannot produce an app: missing
path, nonexistent file, or credential material that fails to load. -/
def fcmNotReady (env : FcmEnv) : Prop :=
  env.sa_path = "" ∨ env.sa_file_exists = false ∨ env.cred_load_ok = false

/-- The APNs payload `call_notify` builds for webhook body `b` and device
token `tok`: the service is invoked with the resolved display name and the
body's call id and call type (lines 117–122 of `push.py`). -/
def apnsPayloadFor (b : CallNotifyRequest) (tok : String) : ApnsPayload :=
  apnsNotificationRequest tok (callerDisplay b) b.call_id b.call_type

/-- The FCM message `call_notify` builds for webhook body `b` and device
token `tok` (lines 130–135 of `push.py`). -/
def fcmMessageFor (b : CallNotifyRequest) (tok : String) : FcmMessage :=
  fcmMessage tok (callerDisplay b) b.call_id b.call_type

/-! ## Loop characterization lemmas -/

/-- One loop iteration, written as a pure accumulator update. -/
theorem stepRow_eq (cj cd ci ct : String) (apnsR fcmR : Row → Option Bool)
    (dur : Row → Nat) (st : LoopState) (row : Row) :
    stepRow cj cd ci ct apnsR fcmR dur st row =
      { sent := st.sent + (if rowDelivered apnsR fcmR row then 1 else 0),
        badTokens := st.badTokens ++
          (if rowRejected apnsR fcmR row then [(cj, row.device_uuid)] else []),
        calls := st.calls ++ rowCall cd ci ct row,
        elapsed := st.elapsed + rowCost dur row } := by
  unfold stepRow rowDelivered rowRejected rowOutcome rowCall rowCost
  by_cases hios : (row.platform == "ios") = true
  · simp only [hios, if_true, Bool.true_or]
    rcases h : apnsR row with _ | b
    · simp [h]
    · cases b <;> simp [h]
  · by_cases hand : (row.platform == "android") = true
    · simp only [hios, hand, if_false, if_true, Bool.false_or]
      rcases h : fcmR row with _ | b
      · simp [h]
      · cases b <;> simp [h]
    · simp [hios, hand]

/-- The whole loop from an arbitrary starting accumulator. -/
theorem dispatchLoop_spec (cj cd ci ct : String) (apnsR fcmR : Row → Option Bool)
    (dur : Row → Nat) (rows : List Row) (st : LoopState) :
    rows.foldl (stepRow cj cd ci ct apnsR fcmR dur) st =
      { sent := st.sent + rows.countP (rowDelivered apnsR fcmR),
        badTokens := st.badTokens ++
          (rows.filter (rowRejected apnsR fcmR)).map (fun r => (cj, r.device_uuid)),
        calls := st.calls ++ (rows.map (rowCall cd ci ct)).flatten,
        elapsed := st.elapsed + (rows.map (rowCost dur)).sum } := by
  induction rows generalizing st with
  | nil => simp
  | cons r rs ih =>
    rw [List.foldl_cons, stepRow_eq, ih]
    simp only [LoopState.mk.injEq, List.countP_cons, List.filter_cons,
      List.map_cons, List.flatten, List.sum_cons]
    refine ⟨by omega, ?_, by simp [List.append_assoc], by omega⟩
    by_cases h : rowRejected apnsR fcmR r = true <;> simp [h, List.append_assoc]

/-- The dispatch loop from its actual `sent = 0, bad_tokens = []` start. -/
theorem dispatchLoop_eq (cj cd ci ct : String) (apnsR fcmR : Row → Option Bool)
    (dur : Row → Nat) (rows : List Row) :
    dispatchLoop cj cd ci ct apnsR fcmR dur rows =
      { sent := rows.countP (rowDelivered apnsR fcmR),
        badTokens := (rows.filter (rowRejected apnsR fcmR)).map
          (fun r => (cj, r.device_uuid)),
        calls := (rows.map (rowCall cd ci ct)).flatten,
        elapsed := (rows.map (rowCost dur)).sum } := by
  unfold dispatchLoop
  rw [dispatchLoop_spec]
  simp

/-- A cleanup pass on which no statement raises performs exactly the
sequence of keyed removals. -/
theorem execCleanup_ok (deleteErr : String → String → Option DbError)
    (pairs : List (String × String)) (reg : Registry)
    (h : ∀ p ∈ pairs, deleteErr p.1 p.2 = none) :
    execCleanup deleteErr reg pairs = .ok (cleanupFold reg pairs) := by
  induction pairs generalizing reg with
  | nil => rfl
  | cons p rest ih =>
    obtain ⟨jid, did⟩ := p
    have hp : deleteErr jid did = none := h (jid, did) (List.mem_cons_self _ _)
    simp only [execCleanup, hp, cleanupFold, List.foldl_cons]
    exact ih (removeRegistration reg jid did)
      (fun q hq => h q (List.mem_cons_of_mem _ hq))

/-- The provider invocations `call_notify` makes: one per `ios`/`android`
row of the fetched registrations, independent of the cleanup phase. -/
theorem callNotify_calls (domain : String) (apnsR fcmR : Row → Option Bool)
    (dur : Row → Nat) (deleteErr : String → String → Option DbError)
    (reg : Registry) (body : CallNotifyRequest) :
    (callNotify domain apnsR fcmR dur deleteErr reg body).1 =
      ((fetchRegistrations reg (calleeJidOf domain body)).map
        (rowCall (callerDisplay body) body.call_id body.call_type)).flatten := by
  unfold callNotify
  by_cases h : (fetchRegistrations reg (calleeJidOf domain body)).isEmpty
  · rw [List.isEmpty_iff] at h
    simp [h]
  · simp only [h, Bool.false_eq_true, if_false]
    rw [dispatchLoop_eq]
    split <;> rfl

/-- C4: with zero stored registrations for the callee, `call_notify`
responds `no_registrations` with `sent = 0`, makes no provider call and
leaves the registry untouched. -/
theorem no_registrations_short_circuit (domain : String)
    (apnsR fcmR : Row → Option Bool) (dur : Row → Nat)
    (deleteErr : String → String → Option DbError) (reg : Registry)
    (body : CallNotifyRequest)
    (h : fetchRegistrations reg (calleeJidOf domain body) = []) :
    callNotify domain apnsR fcmR dur deleteErr reg body =
      ([], .ok ({ status := "no_registrations", sent := 0 }, reg)) := by
  unfold callNotify
  simp [h]

theorem no_registrations_short_circuit_witness :
    fetchRegistrations [] (calleeJidOf "example.com"
      { callee_username := "bob", caller_username := "alice",
        caller_display_name := "Alice", call_id := "c1", call_type := "audio" }) = [] ∧
    callNotify "example.com" (fun _ => some true) (fun _ => some true)
        (fun _ => 1) (fun _ _ => none) []
        { callee_username := "bob", caller_username := "alice",
          caller_display_name := "Alice", call_id := "c1", call_type := "audio" } =
      ([], .ok ({ status := "no_registrations", sent := 0 }, [])) :=
  ⟨rfl, no_registrations_short_circuit "example.com" (fun _ => some true)
    (fun _ => some true) (fun _ => 1) (fun _ _ => none) [] _ rfl⟩

/-- C9: the explicit deregistration delete and the Dispatcher's cleanup
delete perform the same keyed removal; deregistration signals not-found
exactly when no record with the key exists; repeating the cleanup delete
on an already-deleted registration is a no-op, never an error. -/
theorem delete_vs_delete_quietly (reg : Registry) (jid did : String) :
    (deregisterPush jid jid did reg).1 = deleteQuietly reg jid did ∧
    ((deregisterPush jid jid did reg).2 = .error .notFound ↔
      ∀ r ∈ reg, ¬(r.jid = jid ∧ r.device_uuid = did)) ∧
    deleteQuietly (deleteQuietly reg jid did) jid did = deleteQuietly reg jid did := by
  refine ⟨?_, ?_, ?_⟩
  · unfold deregisterPush
    simp only [ne_eq, not_true_eq_false, if_false]
    split <;> rfl
  · unfold deregisterPush
    simp only [ne_eq, not_true_eq_false, if_false]
    by_cases h : reg.countP (matchesKey jid did) = 0
    · simp only [h, if_true]
      rw [List.countP_eq_zero] at h
      simp only [true_iff]
      intro r hr
      have := h r hr
      simp [matchesKey] at this
      tauto
    · simp only [h, if_false]
      constructor
      · intro hcontra
        exact absurd hcontra (by simp)
      · intro hall
        exfalso
        apply h
        rw [List.countP_eq_zero]
        intro r hr
        have := hall r hr
        simp [matchesKey]
        tauto
  · unfold deleteQuietly removeRegistration
    rw [List.filter_filter]
    simp [Bool.and_self]

theorem delete_vs_delete_quietly_witness :
    ((deregisterPush "alice@example.com" "alice@example.com" "dev1" []).2 =
        .error .notFound ↔
      ∀ r ∈ ([] : Registry), ¬(r.jid = "alice@example.com" ∧ r.device_uuid = "dev1")) ∧
    deleteQuietly (deleteQuietly [] "alice@example.com" "dev1")
      "alice@example.com" "dev1" = deleteQuietly [] "alice@example.com" "dev1" :=
  ⟨(delete_vs_delete_quietly [] "alice@example.com" "dev1").2.1,
   (delete_vs_delete_quietly [] "alice@example.com" "dev1").2.2⟩

/-- C10: an empty `caller_display_name` (its model default) falls back to
`caller_username`; a non-empty one is used unchanged; and every provider
invocation made by the dispatcher carries exactly that resolved display
name. -/
theorem caller_display_fallback (domain : String) (apnsR fcmR : Row → Option Bool)
    (dur : Row → Nat) (deleteErr : String → String → Option DbError)
    (reg : Registry) (body : CallNotifyRequest) :
    (body.caller_display_name = "" → callerDisplay body = body.caller_username) ∧
    (body.caller_display_name ≠ "" → callerDisplay body = body.caller_display_name) ∧
    ∀ c ∈ (callNotify domain apnsR fcmR dur deleteErr reg body).1,
      providerCallerName c = callerDisplay body := by
  refine ⟨fun h => by simp [callerDisplay, h],
          fun h => by simp [callerDisplay, h], ?_⟩
  intro c hc
  rw [callNotify_calls] at hc
  rw [List.mem_flatten] at hc
  obtain ⟨l, hl, hcl⟩ := hc
  rw [List.mem_map] at hl
  obtain ⟨r, _, rfl⟩ := hl
  unfold rowCall at hcl
  split at hcl
  · simp at hcl
    subst hcl
    rfl
  · split at hcl
    · simp at hcl
      subst hcl
      rfl
    · simp at hcl

theorem caller_display_fallback_witness :
    callerDisplay demoBodyNoName = "alice" ∧
    callerDisplay demoBody = "Alice" :=
  ⟨(caller_display_fallback "example.com" (fun _ => some true) (fun _ => some true)
      (fun _ => 1) (fun _ _ => none) [] demoBodyNoName).1 rfl,
   (caller_display_fallback "example.com" (fun _ => some true) (fun _ => some true)
      (fun _ => 1) (fun _ _ => none) [] demoBody).2.1 (by decide)⟩

/-- C3: over a non-empty registration set (with a storage layer whose
cleanup deletes succeed), `call_notify` responds with status `"sent"` —
even when the count is 0 — and a `sent` equal to the number of Delivered
outcomes, and the registry afterwards is the original minus exactly one
keyed removal per PermanentlyRejected outcome; Skipped outcomes are
neither counted, nor cleaned up, nor an error. -/
theorem dispatch_aggregation (domain : String) (apnsR fcmR : Row → Option Bool)
    (dur : Row → Nat) (deleteErr : String → String → Option DbError)
    (reg : Registry) (body : CallNotifyRequest)
    (hrows : fetchRegistrations reg (calleeJidOf domain body) ≠ [])
    (hdel : ∀ j d, deleteErr j d = none) :
    (callNotify domain apnsR fcmR dur deleteErr reg body).2 =
      .ok ({ status := "sent",
             sent := (fetchRegistrations reg (calleeJidOf domain body)).countP
               (rowDelivered apnsR fcmR) },
           cleanupFold reg
             (((fetchRegistrations reg (calleeJidOf domain body)).filter
                 (rowRejected apnsR fcmR)).map
               (fun r => (calleeJidOf domain body, r.device_uuid)))) := by
  unfold callNotify
  have hne : (fetchRegistrations reg (calleeJidOf domain body)).isEmpty = false := by
    cases hc : fetchRegistrations reg (calleeJidOf domain body) with
    | nil => exact absurd hc hrows
    | cons a l => rfl
  simp only [hne, Bool.false_eq_true, if_false, dispatchLoop_eq]
  by_cases hbt : (((fetchRegistrations reg (calleeJidOf domain body)).filter
      (rowRejected apnsR fcmR)).map
        (fun r => (calleeJidOf domain body, r.device_uuid))) = []
  · simp [hbt, cleanupFold]
  · have hbtne : (((fetchRegistrations reg (calleeJidOf domain body)).filter
        (rowRejected apnsR fcmR)).map
          (fun r => (calleeJidOf domain body, r.device_uuid))).isEmpty = false := by
      cases hc : (((fetchRegistrations reg (calleeJidOf domain body)).filter
          (rowRejected apnsR fcmR)).map
            (fun r => (calleeJidOf domain body, r.device_uuid))) with
      | nil => exact absurd hc hbt
      | cons a l => rfl
    simp only [hbtne, Bool.false_eq_true, if_false]
    rw [execCleanup_ok deleteErr _ reg (fun p _ => hdel p.1 p.2)]

theorem dispatch_aggregation_witness :
    fetchRegistrations demoRegistry (calleeJidOf "example.com" demoBody) ≠ [] ∧
    (callNotify "example.com"
        (fun r => if r.device_uuid == "dev-ios-1" then some true else some false)
        (fun _ => none) (fun _ => 1) (fun _ _ => none) demoRegistry demoBody).2 =
      .ok ({ status := "sent",
             sent := (fetchRegistrations demoRegistry
               (calleeJidOf "example.com" demoBody)).countP
                 (rowDelivered
                   (fun r => if r.device_uuid == "dev-ios-1" then some true else some false)
                   (fun _ => none)) },
           cleanupFold demoRegistry
             (((fetchRegistrations demoRegistry
                 (calleeJidOf "example.com" demoBody)).filter
                   (rowRejected
                     (fun r => if r.device_uuid == "dev-ios-1" then some true else some false)
                     (fun _ => none))).map
               (fun r => (calleeJidOf "example.com" demoBody, r.device_uuid)))) :=
  ⟨by decide,
   dispatch_aggregation "example.com"
     (fun r => if r.device_uuid == "dev-ios-1" then some true else some false)
     (fun _ => none) (fun _ => 1) (fun _ _ => none) demoRegistry demoBody
     (by decide) (fun _ _ => rfl)⟩

/-- C5 counterexample: two iOS registrations whose sends each take 1 time
unit make the dispatch loop take 2 units — the total is the sum of the
send durations, not bounded by the slowest single send (1 unit), because
the loop awaits each send before starting the next. -/
theorem serial_loop_latency_counterexample :
    (dispatchLoop "bob@example.com" "Alice" "c1" "audio"
        (fun _ => some true) (fun _ => some true) (fun _ => 1)
        (fetchRegistrations [demoIosReg, demoIosReg2] "bob@example.com")).elapsed = 2 ∧
    slowestSend (fun _ => 1)
      (fetchRegistrations [demoIosReg, demoIosReg2] "bob@example.com") = 1 ∧
    ¬((dispatchLoop "bob@example.com" "Alice" "c1" "audio"
        (fun _ => some true) (fun _ => some true) (fun _ => 1)
        (fetchRegistrations [demoIosReg, demoIosReg2] "bob@example.com")).elapsed ≤
      slowestSend (fun _ => 1)
        (fetchRegistrations [demoIosReg, demoIosReg2] "bob@example.com")) := by
  refine ⟨by decide, by decide, by decide⟩

/-- C5 amended: the per-device sends of `call_notify` run in a serial
loop, each awaited before the next begins, so the dispatch latency is the
sum of the individual send durations (one duration per row that is
actually sent to), not the maximum. -/
theorem serial_loop_latency_sum (cj cd ci ct : String)
    (apnsR fcmR : Row → Option Bool) (dur : Row → Nat) (rows : List Row) :
    (dispatchLoop cj cd ci ct apnsR fcmR dur rows).elapsed =
      (rows.map (rowCost dur)).sum := by
  rw [dispatchLoop_eq]

/-! ## Upsert lemmas -/

/-- Predicate `matchesKey` tests exactly equality of the natural key. -/
theorem matchesKey_iff (jid did : String) (r : PushRegistration) :
    matchesKey jid did r = true ↔ regKey r = (jid, did) := by
  simp [matchesKey, regKey, Prod.ext_iff]

/-- A map that does not change whether an element passes the filter
commutes with the filter. -/
theorem filter_map_comm {α : Type} (f : α → α) (P : α → Bool) (l : List α)
    (h : ∀ a, P (f a) = P a) : (l.map f).filter P = (l.filter P).map f := by
  induction l with
  | nil => rfl
  | cons a l ih =>
    simp only [List.map_cons, List.filter_cons, h a]
    by_cases hp : P a = true
    · simp [hp, ih]
    · simp [hp, ih]

/-- Under the unique-key invariant, a key that occurs in the table occurs
in exactly one row. -/
theorem keyUnique_filter_singleton (reg : Registry) (jid did : String)
    (hu : KeyUnique reg) (h : reg.any (matchesKey jid did) = true) :
    ∃ x, x ∈ reg ∧ matchesKey jid did x = true ∧
      reg.filter (matchesKey jid did) = [x] := by
  induction reg with
  | nil => simp at h
  | cons r rs ih =>
    rw [KeyUnique, List.pairwise_cons] at hu
    obtain ⟨hr, hrs⟩ := hu
    by_cases hp : matchesKey jid did r = true
    · refine ⟨r, List.mem_cons_self _ _, hp, ?_⟩
      rw [List.filter_cons, if_pos hp]
      have hnil : rs.filter (matchesKey jid did) = [] := by
        rw [List.filter_eq_nil_iff]
        intro s hs hps
        exact hr s hs (((matchesKey_iff jid did r).1 hp).trans
          ((matchesKey_iff jid did s).1 hps).symm)
      rw [hnil]
    · have h' : rs.any (matchesKey jid did) = true := by
        rcases List.any_eq_true.1 h with ⟨x, hx, hpx⟩
        rcases List.mem_cons.1 hx with rfl | hx'
        · exact absurd hpx hp
        · exact List.any_eq_true.2 ⟨x, hx', hpx⟩
      obtain ⟨x, hx, hpx, hfil⟩ := ih hrs h'
      exact ⟨x, List.mem_cons_of_mem _ hx, hpx,
        by rw [List.filter_cons, if_neg hp, hfil]⟩

/-- The overwrite branch of the upsert neither moves a row's key nor
changes whether it matches the conflict key. -/
theorem upsert_update_key (jid did p t a : String) (n : Nat)
    (r : PushRegistration) :
    regKey (if matchesKey jid did r then
        { r with platform := p, push_token := t, app_id := a,
                 registered_at := n }
      else r) = regKey r := by
  split <;> rfl

theorem upsert_update_matches (jid did p t a : String) (n : Nat)
    (r : PushRegistration) :
    matchesKey jid did (if matchesKey jid did r then
        { r with platform := p, push_token := t, app_id := a,
                 registered_at := n }
      else r) = matchesKey jid did r := by
  split <;> rfl

/-- One upsert leaves exactly one row with the conflict key, and that row
carries the new platform, token, app id and timestamp. -/
theorem upsert_filter (reg : Registry) (jid did p t a : String) (n : Nat)
    (hu : KeyUnique reg) :
    (upsertRegistration reg jid did p t a n).filter (matchesKey jid did) =
      [{ jid := jid, device_uuid := did, platform := p, push_token := t,
         app_id := a, registered_at := n }] := by
  unfold upsertRegistration
  by_cases h : reg.any (matchesKey jid did) = true
  · rw [if_pos h, filter_map_comm _ _ _ (upsert_update_matches jid did p t a n)]
    obtain ⟨x, _, hpx, hfil⟩ := keyUnique_filter_singleton reg jid did hu h
    rw [hfil, List.map_cons, List.map_nil, if_pos hpx]
    have hkey := (matchesKey_iff jid did x).1 hpx
    have h1 : x.jid = jid := congrArg Prod.fst hkey
    have h2 : x.device_uuid = did := congrArg Prod.snd hkey
    cases x
    simp_all
  · rw [if_neg h, List.filter_append]
    have hnil : reg.filter (matchesKey jid did) = [] := by
      rw [List.filter_eq_nil_iff]
      intro s hs hps
      exact h (List.any_eq_true.2 ⟨s, hs, hps⟩)
    rw [hnil]
    simp [matchesKey]

/-- One upsert preserves the unique-key invariant (no duplicate rows are
ever produced). -/
theorem upsert_keyUnique (reg : Registry) (jid did p t a : String) (n : Nat)
    (hu : KeyUnique reg) :
    KeyUnique (upsertRegistration reg jid did p t a n) := by
  unfold upsertRegistration
  by_cases h : reg.any (matchesKey jid did) = true
  · rw [if_pos h]
    unfold KeyUnique at hu ⊢
    refine List.Pairwise.map _ ?_ hu
    intro x y hxy
    rwa [upsert_update_key, upsert_update_key]
  · rw [if_neg h]
    unfold KeyUnique at hu ⊢
    rw [List.pairwise_append]
    refine ⟨hu, List.pairwise_singleton _ _, ?_⟩
    intro x hx y hy
    rw [List.mem_singleton] at hy
    subst hy
    intro hcontra
    apply h
    refine List.any_eq_true.2 ⟨x, hx, ?_⟩
    rw [matchesKey_iff, hcontra]
    rfl

/-- C6: upserting twice with the same `(jid, device_uuid)` key and
different tokens leaves exactly one row for that key — carrying the
latest `push_token`, `platform`, `app_id` and the refreshed
`registered_at` — and preserves the no-duplicates invariant.  (Both the
insert and the overwrite branch are total functions: neither errors.) -/
theorem upsert_single_record (reg : Registry)
    (jid did p1 t1 a1 p2 t2 a2 : String) (n1 n2 : Nat) (hu : KeyUnique reg) :
    (upsertRegistration (upsertRegistration reg jid did p1 t1 a1 n1)
        jid did p2 t2 a2 n2).filter (matchesKey jid did) =
      [{ jid := jid, device_uuid := did, platform := p2, push_token := t2,
         app_id := a2, registered_at := n2 }] ∧
    KeyUnique (upsertRegistration (upsertRegistration reg jid did p1 t1 a1 n1)
      jid did p2 t2 a2 n2) := by
  have h1 := upsert_keyUnique reg jid did p1 t1 a1 n1 hu
  exact ⟨upsert_filter _ jid did p2 t2 a2 n2 h1,
    upsert_keyUnique _ jid did p2 t2 a2 n2 h1⟩

theorem upsert_single_record_witness :
    KeyUnique [] ∧
    (upsertRegistration (upsertRegistration [] "alice@example.com" "dev1"
        "ios" "tokenA" "com.example.veil" 1)
        "alice@example.com" "dev1" "ios" "tokenB" "com.example.veil" 2).filter
      (matchesKey "alice@example.com" "dev1") =
      [{ jid := "alice@example.com", device_uuid := "dev1", platform := "ios",
         push_token := "tokenB", app_id := "com.example.veil",
         registered_at := 2 }] :=
  ⟨List.Pairwise.nil,
   (upsert_single_record [] "alice@example.com" "dev1" "ios" "tokenA"
      "com.example.veil" "ios" "tokenB" "com.example.veil" 1 2
      List.Pairwise.nil).1⟩

/-! ## Misconfiguration behaviour of the two clients -/

/-- Running `_get_client` on a misconfigured environment: no client, the cached
state still empty, exactly one warning logged. -/
theorem apnsGetClient_misconfigured (env : ApnsEnv)
    (hA : apnsMisconfigured env) :
    (apnsGetClient env apnsInitState).client = none ∧
    (apnsGetClient env apnsInitState).state = apnsInitState ∧
    (apnsGetClient env apnsInitState).logs.countP
      ApnsLog.isMisconfigWarning = 1 := by
  unfold apnsGetClient apnsInitState
  by_cases hv : env.key_path = "" ∨ env.key_id = "" ∨ env.team_id = ""
  · simp [hv, ApnsLog.isMisconfigWarning]
  · have hf : env.key_file_exists = false := by
      rcases hA with h | h | h | h
      · exact absurd (Or.inl h) hv
      · exact absurd (Or.inr (Or.inl h)) hv
      · exact absurd (Or.inr (Or.inr h)) hv
      · exact h
    simp [hv, hf, ApnsLog.isMisconfigWarning]

/-- Running `send_voip_push` when `_get_client` yields no client: skip with an
info record, no request, state passed through. -/
theorem sendVoipPush_none (env : ApnsEnv) (b : ApnsProviderBehavior)
    (st : ApnsState) (tok name cid ctyp : String)
    (h : (apnsGetClient env st).client = none) :
    sendVoipPush env b st tok name cid ctyp =
      { result := none, state := (apnsGetClient env st).state,
        logs := (apnsGetClient env st).logs ++ [.infoSkipPush],
        request := none } := by
  unfold sendVoipPush
  simp only [h]

/-- Running `_ensure_initialized` on a not-ready environment, first call: not
ready, `_initialized` latched with no app, exactly one misconfiguration
record logged. -/
theorem fcmEnsureInitialized_first (env : FcmEnv) (hF : fcmNotReady env) :
    (fcmEnsureInitialized env fcmInitState).ready = false ∧
    (fcmEnsureInitialized env fcmInitState).state =
      { app := none, initialized := true } ∧
    (fcmEnsureInitialized env fcmInitState).logs.countP
      FcmLog.isMisconfigWarning = 1 := by
  unfold fcmEnsureInitialized fcmInitState
  by_cases hv : env.sa_path = "" ∨ env.sa_file_exists = false
  · simp [hv, FcmLog.isMisconfigWarning]
  · have hc : env.cred_load_ok = false := by
      rcases hF with h | h | h
      · exact absurd (Or.inl h) hv
      · exact absurd (Or.inr h) hv
      · exact h
    simp [hv, hc, FcmLog.isMisconfigWarning]

/-- Running `send_call_push` when the SDK is not ready: skip with an info record,
no message, state passed through. -/
theorem sendCallPush_notReady (env : FcmEnv) (b : FcmProviderBehavior)
    (st : FcmState) (tok name cid ctyp : String)
    (h : (fcmEnsureInitialized env st).ready = false) :
    sendCallPush env b st tok name cid ctyp =
      { result := none, state := (fcmEnsureInitialized env st).state,
        logs := (fcmEnsureInitialized env st).logs ++ [.infoSkipPush],
        message := none } := by
  unfold sendCallPush
  simp only [h, if_true]

/-- C7 counterexample: with APNs unconfigured, two `send_voip_push` calls
in the same process log the misconfiguration warning twice — once per
call, not once per process (`_get_client` caches nothing on its failure
path, unlike `_ensure_initialized`). -/
theorem apns_misconfig_logged_per_call :
    ((sendVoipPush apnsUnconfEnv .success apnsInitState
        "tok" "Alice" "c1" "audio").logs ++
      (sendVoipPush apnsUnconfEnv .success
        (sendVoipPush apnsUnconfEnv .success apnsInitState
          "tok" "Alice" "c1" "audio").state
        "tok" "Alice" "c1" "audio").logs).countP
      ApnsLog.isMisconfigWarning = 2 ∧
    (2 : Nat) ≠ 1 :=
  ⟨by decide, by decide⟩

/-- C7 amended: when required configuration is absent or the credential
material cannot be loaded, every `send` returns Skipped (`None`) and hands
nothing to the provider (no network I/O); the FCM client logs the
misconfiguration once per process (a second call logs nothing), but the
APNs client does not latch the failure — its state stays fresh, so the
warning recurs on every call. -/
theorem misconfigured_send_skips (envA : ApnsEnv) (envF : FcmEnv)
    (bA : ApnsProviderBehavior) (bF : FcmProviderBehavior)
    (tok name cid ctyp : String)
    (hA : apnsMisconfigured envA) (hF : fcmNotReady envF) :
    ((sendVoipPush envA bA apnsInitState tok name cid ctyp).result = none ∧
     (sendVoipPush envA bA apnsInitState tok name cid ctyp).request = none ∧
     (sendVoipPush envA bA apnsInitState tok name cid ctyp).logs.countP
       ApnsLog.isMisconfigWarning = 1 ∧
     (sendVoipPush envA bA apnsInitState tok name cid ctyp).state =
       apnsInitState) ∧
    ((sendCallPush envF bF fcmInitState tok name cid ctyp).result = none ∧
     (sendCallPush envF bF fcmInitState tok name cid ctyp).message = none ∧
     (sendCallPush envF bF fcmInitState tok name cid ctyp).logs.countP
       FcmLog.isMisconfigWarning = 1) ∧
    ((sendCallPush envF bF
        (sendCallPush envF bF fcmInitState tok name cid ctyp).state
        tok name cid ctyp).result = none ∧
     (sendCallPush envF bF
        (sendCallPush envF bF fcmInitState tok name cid ctyp).state
        tok name cid ctyp).message = none ∧
     (sendCallPush envF bF
        (sendCallPush envF bF fcmInitState tok name cid ctyp).state
        tok name cid ctyp).logs.countP FcmLog.isMisconfigWarning = 0) := by
  obtain ⟨hc, hs, hl⟩ := apnsGetClient_misconfigured envA hA
  obtain ⟨fr, fs, fl⟩ := fcmEnsureInitialized_first envF hF
  have hA1 := sendVoipPush_none envA bA apnsInitState tok name cid ctyp hc
  have hF1 := sendCallPush_notReady envF bF fcmInitState tok name cid ctyp fr
  have fr2 : (fcmEnsureInitialized envF
      { app := none, initialized := true }).ready = false := rfl
  have hF2 := sendCallPush_notReady envF bF
    { app := none, initialized := true } tok name cid ctyp fr2
  refine ⟨?_, ?_, ?_⟩
  · rw [hA1]
    refine ⟨rfl, rfl, ?_, hs⟩
    simp only [List.countP_append, hl]
    rfl
  · rw [hF1]
    refine ⟨rfl, rfl, ?_⟩
    simp only [List.countP_append, fl]
    rfl
  · rw [hF1]
    simp only [fs]
    rw [hF2]
    exact ⟨rfl, rfl, rfl⟩

theorem misconfigured_send_skips_witness :
    apnsMisconfigured apnsUnconfEnv ∧
    fcmNotReady fcmUnconfEnv ∧
    ((sendVoipPush apnsUnconfEnv .success apnsInitState
        "tok" "Alice" "c1" "audio").result = none ∧
     (sendVoipPush apnsUnconfEnv .success apnsInitState
        "tok" "Alice" "c1" "audio").request = none ∧
     (sendVoipPush apnsUnconfEnv .success apnsInitState
        "tok" "Alice" "c1" "audio").logs.countP
       ApnsLog.isMisconfigWarning = 1 ∧
     (sendVoipPush apnsUnconfEnv .success apnsInitState
        "tok" "Alice" "c1" "audio").state = apnsInitState) ∧
    ((sendCallPush fcmUnconfEnv .success fcmInitState
        "tok" "Alice" "c1" "audio").result = none ∧
     (sendCallPush fcmUnconfEnv .success fcmInitState
        "tok" "Alice" "c1" "audio").message = none ∧
     (sendCallPush fcmUnconfEnv .success fcmInitState
        "tok" "Alice" "c1" "audio").logs.countP
       FcmLog.isMisconfigWarning = 1) :=
  ⟨Or.inl rfl, Or.inl rfl,
   (misconfigured_send_skips apnsUnconfEnv fcmUnconfEnv
     .success .success "tok" "Alice" "c1" "audio"
     (Or.inl rfl) (Or.inl rfl)).1,
   (misconfigured_send_skips apnsUnconfEnv fcmUnconfEnv
     .success .success "tok" "Alice" "c1" "audio"
     (Or.inl rfl) (Or.inl rfl)).2.1⟩

/-- C8 counterexample: one iOS registration whose send is permanently
rejected, and a cleanup `DELETE` that raises a storage error:
`call_notify` propagates the error instead of reporting the delivery
summary. -/
theorem cleanup_failure_propagates_counterexample :
    (callNotify "example.com" (fun _ => some false) (fun _ => none)
        (fun _ => 1) (fun _ _ => some "db connection lost")
        [demoIosReg] demoBody).2 = .error "db connection lost" ∧
    dispatchResultOk
      ((callNotify "example.com" (fun _ => some false) (fun _ => none)
        (fun _ => 1) (fun _ _ => some "db connection lost")
        [demoIosReg] demoBody).2) = false :=
  ⟨by rfl, by decide⟩

/-- C8 amended: the cleanup deletes run strictly after the send loop — the
provider invocations made are the same whatever the cleanup storage does —
but a failing cleanup delete is not absorbed: the storage error propagates
to the webhook caller in place of the delivery summary. -/
theorem cleanup_after_sends (domain : String) (apnsR fcmR : Row → Option Bool)
    (dur : Row → Nat) (d1 d2 : String → String → Option DbError)
    (reg : Registry) (body : CallNotifyRequest) (e : DbError)
    (hrows : fetchRegistrations reg (calleeJidOf domain body) ≠ [])
    (herr : execCleanup d1 reg
      (dispatchLoop (calleeJidOf domain body) (callerDisplay body)
        body.call_id body.call_type apnsR fcmR dur
        (fetchRegistrations reg (calleeJidOf domain body))).badTokens =
      .error e) :
    (callNotify domain apnsR fcmR dur d1 reg body).1 =
      (callNotify domain apnsR fcmR dur d2 reg body).1 ∧
    (callNotify domain apnsR fcmR dur d1 reg body).2 = .error e := by
  constructor
  · rw [callNotify_calls, callNotify_calls]
  · unfold callNotify
    have hne : (fetchRegistrations reg (calleeJidOf domain body)).isEmpty = false := by
      cases hc : fetchRegistrations reg (calleeJidOf domain body) with
      | nil => exact absurd hc hrows
      | cons a l => rfl
    simp only [hne, Bool.false_eq_true, if_false]
    by_cases hbt : (dispatchLoop (calleeJidOf domain body) (callerDisplay body)
        body.call_id body.call_type apnsR fcmR dur
        (fetchRegistrations reg (calleeJidOf domain body))).badTokens.isEmpty
    · exfalso
      rw [List.isEmpty_iff] at hbt
      rw [hbt] at herr
      exact absurd herr (by simp [execCleanup])
    · simp only [hbt, Bool.false_eq_true, if_false]
      rw [herr]

theorem cleanup_after_sends_witness :
    fetchRegistrations [demoIosReg] (calleeJidOf "example.com" demoBody) ≠ [] ∧
    execCleanup (fun _ _ => some "db connection lost") [demoIosReg]
      (dispatchLoop (calleeJidOf "example.com" demoBody)
        (callerDisplay demoBody) demoBody.call_id demoBody.call_type
        (fun _ => some false) (fun _ => none) (fun _ => 1)
        (fetchRegistrations [demoIosReg]
          (calleeJidOf "example.com" demoBody))).badTokens =
      .error "db connection lost" ∧
    (callNotify "example.com" (fun _ => some false) (fun _ => none)
        (fun _ => 1) (fun _ _ => some "db connection lost")
        [demoIosReg] demoBody).1 =
      (callNotify "example.com" (fun _ => some false) (fun _ => none)
        (fun _ => 1) (fun _ _ => none) [demoIosReg] demoBody).1 ∧
    (callNotify "example.com" (fun _ => some false) (fun _ => none)
        (fun _ => 1) (fun _ _ => some "db connection lost")
        [demoIosReg] demoBody).2 = .error "db connection lost" :=
  ⟨by decide, by rfl,
   (cleanup_after_sends "example.com" (fun _ => some false) (fun _ => none)
     (fun _ => 1) (fun _ _ => some "db connection lost") (fun _ _ => none)
     [demoIosReg] demoBody "db connection lost" (by decide) (by rfl)).1,
   (cleanup_after_sends "example.com" (fun _ => some false) (fun _ => none)
     (fun _ => 1) (fun _ _ => some "db connection lost") (fun _ _ => none)
     [demoIosReg] demoBody "db connection lost" (by decide) (by rfl)).2⟩

/-- C2 counterexample: at a concrete webhook body, the APNs payload has no
field named `caller_display_name` (the field is named `caller_name`), and
the FCM data payload carries a fourth field `type` beyond the three the
claim allows. -/
theorem payload_field_names_counterexample :
    ("caller_display_name" ∉
      (apnsPayloadFor demoBody "tok").message.map Prod.fst) ∧
    (apnsPayloadFor demoBody "tok").message.map Prod.fst =
      ["caller_name", "call_id", "call_type"] ∧
    "type" ∈ (fcmMessageFor demoBody "tok").data.map Prod.fst ∧
    "type" ∉ ["caller_display_name", "call_id", "call_type"] :=
  ⟨by decide, by decide, by decide, by decide⟩

/-- C2 amended: for every webhook body and device token, the APNs payload
fields are exactly `caller_name` (the resolved display name), `call_id`
and `call_type`, under the platform metadata `push_type = "voip"`; the FCM
data fields are exactly `type` (constantly `"call"`), `caller_name`,
`call_id` and `call_type`, under priority `"high"` and TTL 60; and no
other request field enters: two bodies agreeing on the resolved display
name, call id and call type produce identical payloads. -/
theorem payload_exact_fields (b1 b2 : CallNotifyRequest) (tok : String)
    (h1 : callerDisplay b1 = callerDisplay b2) (h2 : b1.call_id = b2.call_id)
    (h3 : b1.call_type = b2.call_type) :
    (apnsPayloadFor b1 tok).message =
      [("caller_name", callerDisplay b1), ("call_id", b1.call_id),
       ("call_type", b1.call_type)] ∧
    (apnsPayloadFor b1 tok).push_type = "voip" ∧
    (fcmMessageFor b1 tok).data =
      [("type", "call"), ("caller_name", callerDisplay b1),
       ("call_id", b1.call_id), ("call_type", b1.call_type)] ∧
    (fcmMessageFor b1 tok).android_priority = "high" ∧
    (fcmMessageFor b1 tok).android_ttl = 60 ∧
    apnsPayloadFor b1 tok = apnsPayloadFor b2 tok ∧
    fcmMessageFor b1 tok = fcmMessageFor b2 tok := by
  refine ⟨rfl, rfl, rfl, rfl, rfl, ?_, ?_⟩ <;>
    simp [apnsPayloadFor, fcmMessageFor, apnsNotificationRequest, fcmMessage,
      h1, h2, h3]

theorem payload_exact_fields_witness :
    callerDisplay demoBody = callerDisplay demoBodyOtherCallee ∧
    (apnsPayloadFor demoBody "tok").message =
      [("caller_name", callerDisplay demoBody),
       ("call_id", demoBody.call_id), ("call_type", demoBody.call_type)] ∧
    apnsPayloadFor demoBody "tok" = apnsPayloadFor demoBodyOtherCallee "tok" ∧
    fcmMessageFor demoBody "tok" = fcmMessageFor demoBodyOtherCallee "tok" :=
  ⟨by decide,
   (payload_exact_fields demoBody demoBodyOtherCallee "tok"
     (by decide) (by decide) (by decide)).1,
   (payload_exact_fields demoBody demoBodyOtherCallee "tok"
     (by decide) (by decide) (by decide)).2.2.2.2.2.1,
   (payload_exact_fields demoBody demoBodyOtherCallee "tok"
     (by decide) (by decide) (by decide)).2.2.2.2.2.2⟩

/-- C1 (the code at the failing input): with a configured APNs client, a
transient connection error makes `send_voip_push` return `some false` —
the very value a provider bad-token statement returns, not a distinct
non-fatal signal — although the adapter's own (unused) bad-token
classifier says the condition is not a bad-token one; the FCM adapter does
the same for any generic transport exception; and the dispatcher, fed that
value for the sole registration, issues the registry cleanup delete for
it (final registry empty) while counting it as neither delivered nor
skipped. -/
theorem transient_transport_error_treated_as_rejection :
    (sendVoipPush apnsCfgEnv .connectionError apnsInitState
      "apnstoken01" "Alice" "c1" "audio").result = some false ∧
    (sendCallPush fcmCfgEnv .otherError fcmInitState
      "fcmtoken01" "Alice" "c1" "audio").result = some false ∧
    apnsIsBadTokenError none = false ∧
    fcmIsBadTokenError .otherError = false ∧
    (callNotify "example.com" (fun _ => some false) (fun _ => none)
        (fun _ => 1) (fun _ _ => none) [demoIosReg] demoBody).2 =
      .ok ({ status := "sent", sent := 0 }, []) :=
  ⟨by decide, by decide, by decide, by decide, by rfl⟩
